import Mathlib

/-!
Verification of the fm-backend authentication, user, scraping and geocoding
logic: a shallow embedding in Lean of the Django/GraphQL code, with theorems
settling the specification claims.

Machine-checked model of:
  - `src/auth_api/graphql/schema.py` (login, refresh_token, logout mutations)
  - `src/auth_api/middleware.py` (JWTAuthMiddleware)
  - `src/users/schema.py` (register mutation), `src/users/models.py`
    (UserProfile and the post_save signal), `src/users/utils.py`
    (create_admin_user)
  - `src/scraping/admin.py` (ScrapedPlaceAdmin.save_as_place)
  - `src/common/geocoding.py` (geocode_address)

Python strings are modelled as Lean `String`, with the string operations the
code uses (split, startswith, lower, upper) re-implemented structurally over
the underlying character lists so that every definition evaluates inside the
kernel. The state the code keeps in the database (users, user profiles, the
token blacklist, places) is made explicit as record types threaded through
the operations.
-/

namespace FmBackend

/-! ### Character-list string helpers

Structural re-implementations of the Python string operations used by the
source (`str.split(sep)`, `str.startswith`, `str.lower`, `str.upper`),
operating on `String.data`. For a one-character separator, `splitOnChar`
agrees with Python `str.split(sep)`: empty segments are kept and the empty
string splits to one empty segment. -/

def splitOnChar (c : Char) : List Char → List (List Char)
  | [] => [[]]
  | x :: xs =>
      match splitOnChar c xs with
      | [] => [[]]
      | y :: ys => if x = c then [] :: y :: ys else (x :: y) :: ys

def startsWithChars : List Char → List Char → Bool
  | [], _ => true
  | _ :: _, [] => false
  | p :: ps, c :: cs => p = c && startsWithChars ps cs

def lowerChars (cs : List Char) : List Char := cs.map Char.toLower

def upperChars (cs : List Char) : List Char := cs.map Char.toUpper

def charsToNat? (cs : List Char) : Option Nat :=
  if cs = [] then none
  else cs.foldl (fun acc c => match acc with
    | none => none
    | some n => if c.isDigit then some (n * 10 + (c.toNat - 48)) else none) (some 0)

def natToChars (n : Nat) : List Char := Nat.toDigits 10 n

/-! ### JWT token model

Modelled behaviour of the `rest_framework_simplejwt` token class used by
`src/auth_api/graphql/schema.py` and `src/auth_api/middleware.py`. The
library itself is a third-party dependency (not under `src/`); the model
follows the token lifecycle the spec describes (issued, active,
rotated/blacklisted, expired) and the library behaviour the repository's own
tests pin down (`src/users/tests/test_auth.py`: a blacklisted refresh token
no longer refreshes; an unparsable token string makes refresh and logout
fail).

A token payload carries the claims the code manipulates: the user id, the
token id `jti` (set by `set_jti`), issue time `iat` (set by `set_iat`),
expiry `exp` (set by `set_exp`) and the token type. A token string either
decodes (signature verification succeeds) to a payload or is malformed; the
model makes the signed strings exactly the canonical encodings of payloads,
so decoding is a left inverse of encoding and every other string is
malformed, mirroring an unforgeable signature. -/

structure TokenPayload where
  userId : Nat
  jti : Nat
  iat : Nat
  expiresAt : Nat
  tokenType : String
deriving DecidableEq, Repr

inductive RawToken where
  | malformed (s : String)
  | signed (payload : TokenPayload)
deriving DecidableEq, Repr

def encodeToken (p : TokenPayload) : String :=
  ⟨"tok:".data ++ natToChars p.userId ++ [':'] ++ natToChars p.jti ++ [':'] ++
    natToChars p.iat ++ [':'] ++ natToChars p.expiresAt ++ [':'] ++ p.tokenType.data⟩

def decodeToken (s : String) : RawToken :=
  match splitOnChar ':' s.data with
  | [t, u, j, i, e, ty] =>
      if t = "tok".data then
        match charsToNat? u, charsToNat? j, charsToNat? i, charsToNat? e with
        | some un, some jn, some ia, some en =>
            if encodeToken ⟨un, jn, ia, en, ⟨ty⟩⟩ = s then .signed ⟨un, jn, ia, en, ⟨ty⟩⟩
            else .malformed s
        | _, _, _, _ => .malformed s
      else .malformed s
  | _ => .malformed s

theorem decodeToken_signed_encode (s : String) (p : TokenPayload)
    (h : decodeToken s = .signed p) : encodeToken p = s := by
  unfold decodeToken at h
  repeat' split at h
  all_goals simp_all

/-! ### Database state

Rows of Django's `auth_user` table and of `users.UserProfile`
(`src/users/models.py`), the simplejwt token blacklist (the set of
blacklisted `jti` values), and fresh-value counters standing for the
database id sequence and the randomness of freshly drawn `jti` values. -/

structure UserRec where
  id : Nat
  username : String
  email : String
  password : String
  firstName : String
  lastName : String
  isActive : Bool
deriving DecidableEq, Repr

structure ProfileRec where
  userId : Nat
  bio : String
  phoneNumber : String
  defaultLocation : String
  role : String
deriving DecidableEq, Repr

structure AuthState where
  users : List UserRec
  profiles : List ProfileRec
  blacklist : List Nat
  nextUserId : Nat
  nextJti : Nat
deriving DecidableEq, Repr

/-- SIMPLE_JWT token lifetimes (settings are not under `src/`; the default
refresh lifetime of one day and access lifetime of five minutes are used,
in seconds; the exact values never matter to the claims). -/
def refreshLifetime : Nat := 86400

def accessLifetime : Nat := 300

/-- Modelled `RefreshToken(raw)` construction of simplejwt as invoked at
`src/auth_api/graphql/schema.py:155` and `:198`: decoding verifies the
signature and rejects expired tokens, then `verify` checks the token type
and the blacklist. Expiry is checked as in simplejwt `check_exp`
(`exp <= now` is expired). The returned error strings are failure
messages whose exact wording is immaterial to the claims. -/
def validateRefreshToken (st : AuthState) (now : Nat) (raw : RawToken) :
    Except String TokenPayload :=
  match raw with
  | .malformed _ => .error "Token is invalid or expired"
  | .signed p =>
      if p.expiresAt ≤ now then .error "Token is invalid or expired"
      else if p.tokenType ≠ "refresh" then .error "Token has wrong type"
      else if p.jti ∈ st.blacklist then .error "Token is blacklisted"
      else .ok p

/-! ### Auth mutations (`src/auth_api/graphql/schema.py`)

Result records mirror the strawberry result types `LoginResult`,
`RefreshTokenResult`, `LogoutResult` and the nested `TokenPair` /
`JWTToken` / `AuthUserType` types. Token values are the strings the code
returns (`str(refresh)`, `str(refresh.access_token)`). -/

structure JWTToken where
  token : String
  tokenType : String
deriving DecidableEq, Repr

structure TokenPair where
  access : JWTToken
  refresh : JWTToken
deriving DecidableEq, Repr

structure AuthUserType where
  id : Nat
  username : String
  email : String
deriving DecidableEq, Repr

structure LoginResult where
  success : Bool
  message : String
  tokens : Option TokenPair
  user : Option AuthUserType
deriving DecidableEq, Repr

structure RefreshTokenResult where
  success : Bool
  message : String
  tokens : Option TokenPair
deriving DecidableEq, Repr

structure LogoutResult where
  success : Bool
  message : String
deriving DecidableEq, Repr

structure LoginInput where
  username : String
  password : String
deriving DecidableEq, Repr

/-- Django `authenticate(username=..., password=...)` with the default
`ModelBackend` (`AUTHENTICATION_BACKENDS` is not overridden anywhere under
`src/`): look the user up by username, check the password, and reject
inactive users (`user_can_authenticate`). The repository's own test
`test_inactive_user` (`src/auth_api/tests/test_login.py:150`) pins this
down: correct credentials of an inactive user yield the
"Invalid username or password" response, so `authenticate` returned None. -/
def authenticate (st : AuthState) (username password : String) : Option UserRec :=
  match st.users.find? (fun r => r.username = username) with
  | none => none
  | some r => if r.password = password && r.isActive then some r else none

/-- The `login` mutation, `src/auth_api/graphql/schema.py:93-140`.
`RefreshToken.for_user` draws a fresh `jti` and sets the refresh expiry;
`refresh.access_token` derives an access token for the same user with its
own fresh `jti`. -/
def login (st : AuthState) (now : Nat) (input : LoginInput) :
    LoginResult × AuthState :=
  match authenticate st input.username input.password with
  | none =>
      ({ success := false, message := "Invalid username or password",
         tokens := none, user := none }, st)
  | some u =>
      if !u.isActive then
        ({ success := false, message := "User account is disabled",
           tokens := none, user := none }, st)
      else
        let refreshPayload : TokenPayload :=
          ⟨u.id, st.nextJti, now, now + refreshLifetime, "refresh"⟩
        let accessPayload : TokenPayload :=
          ⟨u.id, st.nextJti + 1, now, now + accessLifetime, "access"⟩
        ({ success := true, message := "Login successful",
           tokens := some
             { access := { token := encodeToken accessPayload, tokenType := "access" },
               refresh := { token := encodeToken refreshPayload, tokenType := "refresh" } },
           user := some ⟨u.id, u.username, u.email⟩ },
         { st with nextJti := st.nextJti + 2 })

/-- The `refresh_token` mutation, `src/auth_api/graphql/schema.py:142-182`.
`RefreshToken(input.refresh_token)` validates the submitted string; on
failure the exception is caught and a failure result returned. On success
a new access token is derived for the token's user, and, when the
`ROTATE_REFRESH_TOKENS` setting is true, `set_jti` / `set_exp` / `set_iat`
rewrite the refresh payload with a fresh `jti` and fresh times (the
`hasattr(refresh, 'get_token_backend')` guard in the source is always true
for simplejwt tokens and is omitted). Nothing is ever added to the
blacklist here. -/
def refresh_token (rotate : Bool) (st : AuthState) (now : Nat)
    (refreshToken : String) : RefreshTokenResult × AuthState :=
  match validateRefreshToken st now (decodeToken refreshToken) with
  | .error e =>
      ({ success := false, message := "Token refresh failed: " ++ e,
         tokens := none }, st)
  | .ok p =>
      let accessPayload : TokenPayload :=
        ⟨p.userId, st.nextJti, now, now + accessLifetime, "access"⟩
      let outRefresh : TokenPayload :=
        if rotate then
          { p with jti := st.nextJti + 1, iat := now, expiresAt := now + refreshLifetime }
        else p
      ({ success := true, message := "Token refreshed successfully",
         tokens := some
           { access := { token := encodeToken accessPayload, tokenType := "access" },
             refresh := { token := encodeToken outRefresh, tokenType := "refresh" } } },
       { st with nextJti := st.nextJti + (if rotate then 2 else 1) })

/-- The `logout` mutation, `src/auth_api/graphql/schema.py:184-211`.
`RefreshToken(input.refresh_token)` validates the submitted string
(including the blacklist check), then `token.blacklist()` records the
token's `jti` in the blacklist. -/
def logout (st : AuthState) (now : Nat) (refreshToken : String) :
    LogoutResult × AuthState :=
  match validateRefreshToken st now (decodeToken refreshToken) with
  | .error e =>
      ({ success := false, message := "Logout failed: " ++ e }, st)
  | .ok p =>
      ({ success := true, message := "Logout successful" },
       { st with blacklist := p.jti :: st.blacklist })

/-! ### The operation step relation

All state-changing operations the auth schema exposes, and reachability by
any sequence of them, used to express "any subsequent call". -/

inductive AuthOp where
  | loginOp (now : Nat) (input : LoginInput)
  | refreshOp (rotate : Bool) (now : Nat) (refreshToken : String)
  | logoutOp (now : Nat) (refreshToken : String)

def applyOp (st : AuthState) : AuthOp → AuthState
  | .loginOp now input => (login st now input).2
  | .refreshOp rotate now t => (refresh_token rotate st now t).2
  | .logoutOp now t => (logout st now t).2

def Reachable : AuthState → AuthState → Prop :=
  Relation.ReflTransGen (fun s t => ∃ op, applyOp s op = t)

theorem blacklist_mono_op (st : AuthState) (op : AuthOp) :
    st.blacklist ⊆ (applyOp st op).blacklist := by
  cases op with
  | loginOp now input =>
      simp only [applyOp, login]
      cases authenticate st input.username input.password with
      | none => exact fun a ha => ha
      | some u =>
          by_cases h : u.isActive <;> simp [h]
  | refreshOp rotate now t =>
      simp only [applyOp, refresh_token]
      cases validateRefreshToken st now (decodeToken t) with
      | error e => exact fun a ha => ha
      | ok p => exact fun a ha => ha
  | logoutOp now t =>
      simp only [applyOp, logout]
      cases validateRefreshToken st now (decodeToken t) with
      | error e => exact fun a ha => ha
      | ok p => exact fun a ha => List.mem_cons_of_mem _ ha

theorem validateRefreshToken_malformed (st : AuthState) (now : Nat) (s : String) :
    validateRefreshToken st now (.malformed s) =
      .error "Token is invalid or expired" := rfl

theorem validateRefreshToken_signed (st : AuthState) (now : Nat) (p : TokenPayload) :
    validateRefreshToken st now (.signed p) =
      if p.expiresAt ≤ now then .error "Token is invalid or expired"
      else if p.tokenType ≠ "refresh" then .error "Token has wrong type"
      else if p.jti ∈ st.blacklist then .error "Token is blacklisted"
      else .ok p := rfl

theorem validateRefreshToken_ok_inv {st : AuthState} {now : Nat} {raw : RawToken}
    {p : TokenPayload} (hv : validateRefreshToken st now raw = .ok p) :
    raw = .signed p ∧ ¬p.expiresAt ≤ now ∧ p.tokenType = "refresh" ∧
      p.jti ∉ st.blacklist := by
  cases raw with
  | malformed s => exact Except.noConfusion (validateRefreshToken_malformed st now s ▸ hv)
  | signed q =>
      rw [validateRefreshToken_signed] at hv
      split_ifs at hv with h1 h2 h3
      all_goals
        first
          | exact Except.noConfusion hv
          | (rw [not_not] at h2
             injection hv with hqp
             subst hqp
             exact ⟨rfl, h1, h2, h3⟩)

theorem blacklist_mono_reachable {st st' : AuthState} (h : Reachable st st') :
    st.blacklist ⊆ st'.blacklist := by
  induction h with
  | refl => exact fun a ha => ha
  | tail _ hstep ih =>
      rcases hstep with ⟨op, rfl⟩
      exact fun a ha => blacklist_mono_op _ op (ih ha)

/-- C1: blacklisting is terminal in the token lifecycle. Once the logout
mutation has succeeded on a refresh token string `t` (blacklisting it),
any call of the refresh_token mutation with `t`, in any state reachable
from the post-logout state by further login / refresh / logout operations,
returns success = false and issues no tokens. -/
theorem blacklisting_is_terminal (st st' : AuthState) (now now' : Nat)
    (rotate : Bool) (t : String)
    (hsucc : (logout st now t).1.success = true)
    (hreach : Reachable (logout st now t).2 st') :
    (refresh_token rotate st' now' t).1.success = false ∧
    (refresh_token rotate st' now' t).1.tokens = none := by
  rcases hv : validateRefreshToken st now (decodeToken t) with e | p
  · unfold logout at hsucc
    rw [hv] at hsucc
    simp at hsucc
  · have hbl : p.jti ∈ (logout st now t).2.blacklist := by
      unfold logout
      rw [hv]
      exact List.mem_cons_self _ _
    have hbl' : p.jti ∈ st'.blacklist := blacklist_mono_reachable hreach hbl
    obtain ⟨hd, -, hty, -⟩ := validateRefreshToken_ok_inv hv
    have herr : ∃ e, validateRefreshToken st' now' (decodeToken t) = .error e := by
      rw [hd, validateRefreshToken_signed]
      by_cases h1 : p.expiresAt ≤ now'
      · exact ⟨_, if_pos h1⟩
      · refine ⟨"Token is blacklisted", ?_⟩
        rw [if_neg h1, if_neg (by simp [hty]), if_pos hbl']
    obtain ⟨e, he⟩ := herr
    unfold refresh_token
    rw [he]
    exact ⟨rfl, rfl⟩

/-- Witness for C1 at a concrete state and token: logging out the token
"tok:1:0:0:100:refresh" in the empty state succeeds, and refreshing it
immediately afterwards fails with no tokens issued. -/
theorem blacklisting_is_terminal_witness :
    (logout ⟨[], [], [], 0, 0⟩ 0 "tok:1:0:0:100:refresh").1.success = true ∧
    ((refresh_token false (logout ⟨[], [], [], 0, 0⟩ 0 "tok:1:0:0:100:refresh").2 0
        "tok:1:0:0:100:refresh").1.success = false ∧
      (refresh_token false (logout ⟨[], [], [], 0, 0⟩ 0 "tok:1:0:0:100:refresh").2 0
        "tok:1:0:0:100:refresh").1.tokens = none) :=
  ⟨by decide,
    blacklisting_is_terminal ⟨[], [], [], 0, 0⟩ _ 0 0 false "tok:1:0:0:100:refresh"
      (by decide) Relation.ReflTransGen.refl⟩

/-- C2: explicit failure model. For every input string that is not a
currently valid refresh token (malformed, expired, wrong token type, or
blacklisted — exactly the cases in which validation raises), the
refresh_token mutation returns success = false with a failure message and
tokens = none, and the logout mutation returns success = false with a
failure message; both catch the validation exception, so the caller always
receives a result value. -/
theorem invalid_token_failure_model (st : AuthState) (now : Nat)
    (rotate : Bool) (t e : String)
    (h : validateRefreshToken st now (decodeToken t) = .error e) :
    (refresh_token rotate st now t).1 =
      ⟨false, "Token refresh failed: " ++ e, none⟩ ∧
    (logout st now t).1 = ⟨false, "Logout failed: " ++ e⟩ := by
  unfold refresh_token logout
  rw [h]
  exact ⟨rfl, rfl⟩

/-- Witness for C2 at the string "garbage" (malformed) in the empty state. -/
theorem invalid_token_failure_model_witness :
    validateRefreshToken ⟨[], [], [], 0, 0⟩ 0 (decodeToken "garbage") =
      .error "Token is invalid or expired" ∧
    (refresh_token false ⟨[], [], [], 0, 0⟩ 0 "garbage").1 =
      ⟨false, "Token refresh failed: " ++ "Token is invalid or expired", none⟩ ∧
    (logout ⟨[], [], [], 0, 0⟩ 0 "garbage").1 =
      ⟨false, "Logout failed: " ++ "Token is invalid or expired"⟩ :=
  ⟨rfl,
    invalid_token_failure_model ⟨[], [], [], 0, 0⟩ 0 false "garbage"
      "Token is invalid or expired" rfl⟩

/-- C10: the refresh_token mutation never adds any token to the blacklist,
whatever the rotation setting and whether or not it succeeds; login never
touches the blacklist either; and any operation that changes the blacklist
is a logout. In particular the originally submitted refresh token is not
blacklisted by a refresh. -/
theorem refresh_never_blacklists (rotate : Bool) (st : AuthState) (now : Nat)
    (t : String) :
    (refresh_token rotate st now t).2.blacklist = st.blacklist ∧
    (∀ input, (login st now input).2.blacklist = st.blacklist) ∧
    (∀ op, (applyOp st op).blacklist ≠ st.blacklist →
      ∃ now' t', op = .logoutOp now' t') := by
  have hrefresh : ∀ rot (n : Nat) (s : String),
      (refresh_token rot st n s).2.blacklist = st.blacklist := by
    intro rot n s
    unfold refresh_token
    cases validateRefreshToken st n (decodeToken s) with
    | error e => rfl
    | ok p => rfl
  have hlogin : ∀ (n : Nat) input, (login st n input).2.blacklist = st.blacklist := by
    intro n input
    unfold login
    cases authenticate st input.username input.password with
    | none => rfl
    | some u => by_cases h : u.isActive <;> simp [h]
  refine ⟨hrefresh rotate now t, hlogin now, ?_⟩
  intro op hne
  cases op with
  | loginOp n input => exact absurd (hlogin n input) hne
  | refreshOp rot n s => exact absurd (hrefresh rot n s) hne
  | logoutOp n s => exact ⟨n, s, rfl⟩

/-- Witness for C10's conditional part: logging out a valid token changes
the blacklist, and the theorem then identifies the operation as a logout. -/
theorem refresh_never_blacklists_witness :
    (applyOp ⟨[], [], [], 0, 0⟩ (.logoutOp 0 "tok:1:0:0:100:refresh")).blacklist ≠
      (⟨[], [], [], 0, 0⟩ : AuthState).blacklist ∧
    ∃ now' t', (AuthOp.logoutOp 0 "tok:1:0:0:100:refresh") = .logoutOp now' t' :=
  ⟨by decide,
    (refresh_never_blacklists false ⟨[], [], [], 0, 0⟩ 0 "x").2.2
      (.logoutOp 0 "tok:1:0:0:100:refresh") (by decide)⟩

/-- C4: refresh and rotation. For every valid refresh token, the
refresh_token mutation returns success = true with a new access token issued
for the same user as the refresh token. The refresh token in the returned
pair carries a new jti, issued-at and expiry (drawn fresh, hence different
from the submitted token's jti) exactly when the ROTATE_REFRESH_TOKENS
setting is true, and otherwise equals the submitted refresh token string
unchanged. The freshness hypothesis `hfresh` says the submitted token's
jti was drawn earlier than the state's fresh-jti counter, which holds for
every token the system issued. -/
theorem refresh_rotation (rotate : Bool) (st : AuthState) (now : Nat)
    (t : String) (p : TokenPayload)
    (hok : validateRefreshToken st now (decodeToken t) = .ok p)
    (hfresh : p.jti < st.nextJti) :
    (refresh_token rotate st now t).1.success = true ∧
    ∃ pair, (refresh_token rotate st now t).1.tokens = some pair ∧
      pair.access.token =
        encodeToken ⟨p.userId, st.nextJti, now, now + accessLifetime, "access"⟩ ∧
      (if rotate then
        pair.refresh.token =
          encodeToken { p with jti := st.nextJti + 1, iat := now,
                               expiresAt := now + refreshLifetime } ∧
          st.nextJti + 1 ≠ p.jti
      else pair.refresh.token = t) := by
  obtain ⟨hd, -, -, -⟩ := validateRefreshToken_ok_inv hok
  unfold refresh_token
  rw [hok]
  refine ⟨rfl, _, rfl, rfl, ?_⟩
  cases rotate with
  | true => exact ⟨rfl, by omega⟩
  | false =>
      show encodeToken p = t
      exact decodeToken_signed_encode t p hd

/-- Witness for C4 with rotation enabled, at the valid token
"tok:1:0:0:100:refresh" in a state whose jti counter is 5. -/
theorem refresh_rotation_witness :
    (refresh_token true ⟨[], [], [], 0, 5⟩ 0 "tok:1:0:0:100:refresh").1.success = true ∧
    ∃ pair,
      (refresh_token true ⟨[], [], [], 0, 5⟩ 0 "tok:1:0:0:100:refresh").1.tokens =
        some pair ∧
      pair.access.token = encodeToken ⟨1, 5, 0, 0 + accessLifetime, "access"⟩ ∧
      (if true then
        pair.refresh.token =
          encodeToken { (⟨1, 0, 0, 100, "refresh"⟩ : TokenPayload) with
                          jti := 5 + 1, iat := 0, expiresAt := 0 + refreshLifetime } ∧
          5 + 1 ≠ (⟨1, 0, 0, 100, "refresh"⟩ : TokenPayload).jti
      else pair.refresh.token = "tok:1:0:0:100:refresh") :=
  refresh_rotation true ⟨[], [], [], 0, 5⟩ 0 "tok:1:0:0:100:refresh"
    ⟨1, 0, 0, 100, "refresh"⟩ rfl (by decide)

/-- The state used to refute C3's disabled-account clause: one user "bob"
with password "pw" whose account is inactive (is_active = False), with his
signal-created profile. -/
def inactiveUserState : AuthState :=
  ⟨[⟨1, "bob", "bob@example.com", "pw", "", "", false⟩],
   [⟨1, "", "", "", "freemium_user"⟩], [], 2, 0⟩

/-- C3 counterexample: logging in with the correct credentials of the
inactive user "bob" returns success = false with message
"Invalid username or password", not "User account is disabled" as the claim
states: Django's default ModelBackend already rejects inactive users inside
authenticate (the repository's own test test_inactive_user pins this), so
the mutation's disabled-account branch never fires. -/
theorem login_inactive_counterexample :
    (∃ u ∈ inactiveUserState.users,
      u.username = "bob" ∧ u.password = "pw" ∧ u.isActive = false) ∧
    (login inactiveUserState 0 ⟨"bob", "pw"⟩).1.success = false ∧
    (login inactiveUserState 0 ⟨"bob", "pw"⟩).1.tokens = none ∧
    (login inactiveUserState 0 ⟨"bob", "pw"⟩).1.message =
      "Invalid username or password" ∧
    (login inactiveUserState 0 ⟨"bob", "pw"⟩).1.message ≠
      "User account is disabled" := by
  decide

/-- C3 (amended): for every username/password pair, the login mutation
returns success = true together with an access/refresh token pair and the
user's id, username and email exactly when the credentials authenticate an
active user; in every failing case — wrong username, wrong password, or
correct credentials of an inactive user, which the default authentication
backend already rejects — it returns success = false with message
"Invalid username or password" and no tokens. The mutation's
"User account is disabled" message is never produced. -/
theorem login_spec (st : AuthState) (now : Nat) (inp : LoginInput) :
    (∀ u, authenticate st inp.username inp.password = some u →
      (login st now inp).1 =
        { success := true, message := "Login successful",
          tokens := some
            { access :=
                { token :=
                    encodeToken ⟨u.id, st.nextJti + 1, now, now + accessLifetime, "access"⟩,
                  tokenType := "access" },
              refresh :=
                { token :=
                    encodeToken ⟨u.id, st.nextJti, now, now + refreshLifetime, "refresh"⟩,
                  tokenType := "refresh" } },
          user := some ⟨u.id, u.username, u.email⟩ }) ∧
    (authenticate st inp.username inp.password = none →
      (login st now inp).1 =
        { success := false, message := "Invalid username or password",
          tokens := none, user := none }) ∧
    (∀ u, st.users.find? (fun r => r.username = inp.username) = some u →
      u.isActive = false → authenticate st inp.username inp.password = none) ∧
    ((login st now inp).1.message = "Login successful" ∨
      (login st now inp).1.message = "Invalid username or password") := by
  have hauth : ∀ u, authenticate st inp.username inp.password = some u →
      u.isActive = true := by
    intro u hu
    unfold authenticate at hu
    cases hf : st.users.find? (fun r => r.username = inp.username) with
    | none =>
        rw [hf] at hu
        exact Option.noConfusion hu
    | some r =>
        rw [hf] at hu
        have hu' : (if r.password = inp.password && r.isActive then some r else none)
            = some u := hu
        split at hu'
        · rename_i hcond
          injection hu' with hru
          subst hru
          exact (Bool.and_eq_true _ _).mp hcond |>.2
        · exact Option.noConfusion hu'
  refine ⟨?_, ?_, ?_, ?_⟩
  · intro u hu
    have hact := hauth u hu
    simp [login, hu, hact]
  · intro hnone
    simp [login, hnone]
  · intro u hf hinact
    simp [authenticate, hf, hinact]
  · cases hu : authenticate st inp.username inp.password with
    | none =>
        refine Or.inr ?_
        simp [login, hu]
    | some u =>
        have hact := hauth u hu
        refine Or.inl ?_
        simp [login, hu, hact]

/-- Witness for C3's amended theorem: an active user "alice" logs in
successfully, and in the inactive-user state the failure branch applies. -/
theorem login_spec_witness :
    (login ⟨[⟨1, "alice", "a@example.com", "pw", "", "", true⟩],
            [⟨1, "", "", "", "freemium_user"⟩], [], 2, 0⟩ 0 ⟨"alice", "pw"⟩).1 =
      { success := true, message := "Login successful",
        tokens := some
          { access :=
              { token := encodeToken ⟨1, 0 + 1, 0, 0 + accessLifetime, "access"⟩,
                tokenType := "access" },
            refresh :=
              { token := encodeToken ⟨1, 0, 0, 0 + refreshLifetime, "refresh"⟩,
                tokenType := "refresh" } },
        user := some ⟨1, "alice", "a@example.com"⟩ } ∧
    (login inactiveUserState 0 ⟨"bob", "pw"⟩).1 =
      { success := false, message := "Invalid username or password",
        tokens := none, user := none } :=
  ⟨(login_spec ⟨[⟨1, "alice", "a@example.com", "pw", "", "", true⟩],
      [⟨1, "", "", "", "freemium_user"⟩], [], 2, 0⟩ 0 ⟨"alice", "pw"⟩).1
      ⟨1, "alice", "a@example.com", "pw", "", "", true⟩ (by decide),
   (login_spec inactiveUserState 0 ⟨"bob", "pw"⟩).2.1 (by decide)⟩

/-! ### JWT middleware (`src/auth_api/middleware.py`)

The middleware authenticates requests from the Authorization header. Its
`get_validated_token` returns None for a header that does not start with
"Bearer ", and otherwise validates `header.split(' ')[1]` as an access
token (simplejwt `JWTAuthentication.get_validated_token` with the default
`AUTH_TOKEN_CLASSES`, modelled like the refresh validation but for token
type "access" and with no blacklist check). Exceptions are modelled
explicitly: `tokenError` stands for simplejwt's InvalidToken / TokenError,
which the middleware catches; `authenticationFailed` stands for DRF's
AuthenticationFailed raised by `get_user` for a missing or inactive user,
which is not in the middleware's except clause. -/

inductive RequestUser where
  | anonymous
  | authenticated (u : UserRec)
deriving DecidableEq, Repr

/-- An HTTP request: `authorization` is META['HTTP_AUTHORIZATION'] (none
when the header is absent), `user?` is the request's user attribute (none
when unset or Python None, as at the middleware's entry). -/
structure HttpRequest where
  authorization : Option String
  user? : Option RequestUser
deriving DecidableEq, Repr

inductive AuthError where
  | tokenError (msg : String)
  | authenticationFailed (msg : String)
deriving DecidableEq, Repr

def validateAccessToken (now : Nat) (raw : RawToken) : Except String TokenPayload :=
  match raw with
  | .malformed _ => .error "Token is invalid or expired"
  | .signed p =>
      if p.expiresAt ≤ now then .error "Token is invalid or expired"
      else if p.tokenType ≠ "access" then .error "Token has wrong type"
      else .ok p

/-- `JWTAuthMiddleware.get_validated_token`,
`src/auth_api/middleware.py:95-117`: None for a non-Bearer header,
otherwise validate the second space-separated chunk of the header. -/
def get_validated_token (now : Nat) (h : String) :
    Except AuthError (Option TokenPayload) :=
  if startsWithChars "Bearer ".data h.data then
    match validateAccessToken now (decodeToken ⟨(splitOnChar ' ' h.data).getD 1 []⟩) with
    | .error e => .error (.tokenError e)
    | .ok p => .ok (some p)
  else .ok none

/-- Modelled simplejwt `JWTAuthentication.get_user`: look the user up by the
token's user id; a missing or inactive user raises AuthenticationFailed
(which is not an InvalidToken/TokenError). -/
def get_user (users : List UserRec) (p : TokenPayload) : Except AuthError UserRec :=
  match users.find? (fun u => u.id = p.userId) with
  | none => .error (.authenticationFailed "User not found")
  | some u =>
      if u.isActive then .ok u
      else .error (.authenticationFailed "User is inactive")

/-- `JWTAuthMiddleware.__call__`, `src/auth_api/middleware.py:51-93`: default
the user to AnonymousUser, then, when an Authorization header is present,
try to validate it and resolve the user, catching only InvalidToken /
TokenError. An `Except.error` result models an exception escaping the
middleware. -/
def jwtAuthMiddleware (users : List UserRec) (now : Nat) (req : HttpRequest) :
    Except AuthError HttpRequest :=
  let req1 : HttpRequest :=
    match req.user? with
    | none => { req with user? := some .anonymous }
    | some u => { req with user? := some u }
  match req1.authorization with
  | none => .ok req1
  | some h =>
      match get_validated_token now h with
      | .error (.tokenError _) => .ok req1
      | .error (.authenticationFailed e) => .error (.authenticationFailed e)
      | .ok none => .ok req1
      | .ok (some p) =>
          match get_user users p with
          | .error (.tokenError _) => .ok req1
          | .error (.authenticationFailed e) => .error (.authenticationFailed e)
          | .ok u => .ok { req1 with user? := some (.authenticated u) }

/-- C5: bearer authentication. For a request entering the middleware with no
user attribute set: with no Authorization header, a non-Bearer header, or a
Bearer header whose token fails validation, the middleware returns normally
(no exception) with the request's user set to AnonymousUser; with a Bearer
header whose token validates and resolves to an existing user, it returns
normally with the request's user set to that authenticated user. -/
theorem middleware_bearer_auth (users : List UserRec) (now : Nat)
    (req : HttpRequest) (hu : req.user? = none) :
    (req.authorization = none →
      jwtAuthMiddleware users now req = .ok { req with user? := some .anonymous }) ∧
    (∀ h, req.authorization = some h →
      startsWithChars "Bearer ".data h.data = false →
      jwtAuthMiddleware users now req = .ok { req with user? := some .anonymous }) ∧
    (∀ h e, req.authorization = some h →
      validateAccessToken now (decodeToken ⟨(splitOnChar ' ' h.data).getD 1 []⟩) =
        .error e →
      jwtAuthMiddleware users now req = .ok { req with user? := some .anonymous }) ∧
    (∀ h p u, req.authorization = some h →
      startsWithChars "Bearer ".data h.data = true →
      validateAccessToken now (decodeToken ⟨(splitOnChar ' ' h.data).getD 1 []⟩) =
        .ok p →
      get_user users p = .ok u →
      jwtAuthMiddleware users now req =
        .ok { req with user? := some (.authenticated u) }) := by
  refine ⟨?_, ?_, ?_, ?_⟩
  · intro ha
    simp [jwtAuthMiddleware, hu, ha]
  · intro h ha hbear
    simp [jwtAuthMiddleware, get_validated_token, hu, ha, hbear]
  · intro h e ha hval
    simp only [List.getD_eq_getElem?_getD] at hval
    by_cases hb : startsWithChars "Bearer ".data h.data
    · simp [jwtAuthMiddleware, get_validated_token, hu, ha, hb, hval]
    · simp [jwtAuthMiddleware, get_validated_token, hu, ha, hb]
  · intro h p u ha hb hval hget
    simp only [List.getD_eq_getElem?_getD] at hval
    simp [jwtAuthMiddleware, get_validated_token, hu, ha, hb, hval, hget]

/-- Witness for C5: a Bearer header with a valid access token authenticates
the user "alice"; a non-Bearer header leaves the request anonymous. -/
theorem middleware_bearer_auth_witness :
    jwtAuthMiddleware [⟨1, "alice", "a@example.com", "pw", "", "", true⟩] 0
        ⟨some "Bearer tok:1:5:0:100:access", none⟩ =
      .ok ⟨some "Bearer tok:1:5:0:100:access",
           some (.authenticated ⟨1, "alice", "a@example.com", "pw", "", "", true⟩)⟩ ∧
    jwtAuthMiddleware [⟨1, "alice", "a@example.com", "pw", "", "", true⟩] 0
        ⟨some "Basic xyz", none⟩ =
      .ok ⟨some "Basic xyz", some .anonymous⟩ :=
  ⟨(middleware_bearer_auth [⟨1, "alice", "a@example.com", "pw", "", "", true⟩] 0
      ⟨some "Bearer tok:1:5:0:100:access", none⟩ rfl).2.2.2
      "Bearer tok:1:5:0:100:access" ⟨1, 5, 0, 100, "access"⟩
      ⟨1, "alice", "a@example.com", "pw", "", "", true⟩ rfl (by decide) rfl rfl,
   (middleware_bearer_auth [⟨1, "alice", "a@example.com", "pw", "", "", true⟩] 0
      ⟨some "Basic xyz", none⟩ rfl).2.1 "Basic xyz" rfl (by decide)⟩

/-! ### User creation, registration and profiles
(`src/users/models.py`, `src/users/schema.py`, `src/users/utils.py`)

`User.objects.create_user` inserts the user row; the `post_save` signal
`create_or_update_user_profile` then creates a `UserProfile` with default
field values for the new user. The database (Postgres) enforces
`CharField.max_length` as a varchar bound, so saving a row with an
over-long character field raises a DataError; `bio` is a TextField and
unbounded at the database level. -/

def defaultProfile (userId : Nat) : ProfileRec :=
  ⟨userId, "", "", "", "freemium_user"⟩

/-- Varchar bounds of Django's auth_user columns (username 150,
email 254, first_name 150, last_name 150). -/
def userSaveOk (u : UserRec) : Bool :=
  u.username.length ≤ 150 && u.email.length ≤ 254 &&
    u.firstName.length ≤ 150 && u.lastName.length ≤ 150

/-- Varchar bounds of the UserProfile columns
(`src/users/models.py:26-35`): phone_number 15, default_location 255,
role 20. -/
def profileSaveOk (p : ProfileRec) : Bool :=
  p.phoneNumber.length ≤ 15 && p.defaultLocation.length ≤ 255 &&
    p.role.length ≤ 20

/-- `User.objects.create_user(...)` followed by the `post_save` signal
(`src/users/models.py:49-57`): on success the new active user row and its
default profile (role "freemium_user") are inserted. -/
def create_user (st : AuthState) (username email password firstName lastName : String) :
    Except String (UserRec × AuthState) :=
  if userSaveOk ⟨st.nextUserId, username, email, password, firstName, lastName, true⟩ then
    .ok (⟨st.nextUserId, username, email, password, firstName, lastName, true⟩,
      { st with
          users := st.users ++ [⟨st.nextUserId, username, email, password, firstName, lastName, true⟩],
          profiles := st.profiles ++ [defaultProfile st.nextUserId],
          nextUserId := st.nextUserId + 1 })
  else .error "value too long"

structure UserRegistrationInput where
  username : String
  email : String
  password : String
  firstName : String
  lastName : String
  bio : String
  phoneNumber : String
  defaultLocation : String
  role : String
deriving DecidableEq, Repr

structure UserRegistrationResult where
  success : Bool
  message : String
  userId : Option Nat
deriving DecidableEq, Repr

/-- The `register` mutation, `src/users/schema.py:81-124`: duplicate
username/email checks, then `create_user`, then the profile fields from the
input are written onto the signal-created profile and saved. The whole
try-block is NOT wrapped in a transaction (unlike `create_admin_user`), so
when `profile.save()` raises after the user row was inserted, the failure
result is returned while the user row remains. -/
def register (st : AuthState) (input : UserRegistrationInput) :
    UserRegistrationResult × AuthState :=
  if st.users.any (fun u => u.username = input.username) then
    (⟨false, "Username already exists", none⟩, st)
  else if st.users.any (fun u => u.email = input.email) then
    (⟨false, "Email already exists", none⟩, st)
  else
    match create_user st input.username input.email input.password
      input.firstName input.lastName with
    | .error e => (⟨false, "Registration failed: " ++ e, none⟩, st)
    | .ok (u, st1) =>
        if profileSaveOk ⟨u.id, input.bio, input.phoneNumber,
            input.defaultLocation, input.role⟩ then
          (⟨true, "User registered successfully", some u.id⟩,
           { st1 with profiles := st1.profiles.map (fun pr =>
               if pr.userId = u.id then
                 ⟨u.id, input.bio, input.phoneNumber, input.defaultLocation, input.role⟩
               else pr) })
        else
          (⟨false, "Registration failed: value too long", none⟩, st1)

/-- `create_admin_user`, `src/users/utils.py:8-57`: like register but the
user creation and the promotion of the profile to role "admin" run inside
`transaction.atomic()`, so a failure inside the block rolls everything
back and no user remains. -/
def create_admin_user (st : AuthState)
    (username email password firstName lastName : String) :
    (Option Nat × Bool × String) × AuthState :=
  if st.users.any (fun u => u.username = username) then
    ((none, false, "User with username '" ++ username ++ "' already exists"), st)
  else if st.users.any (fun u => u.email = email) then
    ((none, false, "User with email '" ++ email ++ "' already exists"), st)
  else
    match create_user st username email password firstName lastName with
    | .error e => ((none, false, "Failed to create admin user: " ++ e), st)
    | .ok (u, st1) =>
        if profileSaveOk { defaultProfile u.id with role := "admin" } then
          ((some u.id, true, "Admin user created successfully"),
           { st1 with profiles := st1.profiles.map (fun pr =>
               if pr.userId = u.id then { defaultProfile u.id with role := "admin" }
               else pr) })
        else
          ((none, false, "Failed to create admin user: value too long"), st)

def getProfile (st : AuthState) (userId : Nat) : Option ProfileRec :=
  st.profiles.find? (fun p => p.userId = userId)

/-- `UserProfile.is_admin`, `src/users/models.py:40-45`. -/
def ProfileRec.is_admin (p : ProfileRec) : Bool := p.role = "admin"

/-- Well-formedness of the database state: ids already allocated are below
the id sequence counter. Holds for every state built from the empty one. -/
def WF (st : AuthState) : Prop :=
  (∀ u ∈ st.users, u.id < st.nextUserId) ∧
    (∀ p ∈ st.profiles, p.userId < st.nextUserId)

instance (st : AuthState) : Decidable (WF st) := by
  unfold WF
  infer_instance

/-- Every user row has a profile row. -/
def ProfilesComplete (st : AuthState) : Prop :=
  ∀ u ∈ st.users, (getProfile st u.id).isSome

instance (st : AuthState) : Decidable (ProfilesComplete st) := by
  unfold ProfilesComplete
  infer_instance

theorem find?_append_of_none {α : Type} {p : α → Bool} {l1 : List α}
    (l2 : List α) (h : l1.find? p = none) :
    (l1 ++ l2).find? p = l2.find? p := by
  rw [List.find?_append, h, Option.none_or]

theorem profiles_update_mem (l : List ProfileRec) (uid : Nat) (np : ProfileRec)
    (hnp : np.userId = uid) (x : Nat)
    (h : ∃ q ∈ l, q.userId = x) :
    ∃ q ∈ l.map (fun pr => if pr.userId = uid then np else pr), q.userId = x := by
  obtain ⟨q, hq, hx⟩ := h
  refine ⟨if q.userId = uid then np else q, List.mem_map_of_mem _ hq, ?_⟩
  by_cases hc : q.userId = uid
  · rw [if_pos hc, hnp, ← hc]
    exact hx
  · rw [if_neg hc]
    exact hx

theorem profiles_update_lt (l : List ProfileRec) (uid n : Nat) (np : ProfileRec)
    (hnp : np.userId = uid) (huid : uid < n)
    (h : ∀ p ∈ l, p.userId < n) :
    ∀ p ∈ l.map (fun pr => if pr.userId = uid then np else pr), p.userId < n := by
  intro p hp
  obtain ⟨q, hq, rfl⟩ := List.mem_map.mp hp
  by_cases hc : q.userId = uid
  · rw [if_pos hc, hnp]
    exact huid
  · rw [if_neg hc]
    exact h q hq

/-- The effect of a successful `create_user` on the state, read off the
definition. -/
theorem create_user_ok_inv {st : AuthState} {username email password fn ln : String}
    {u : UserRec} {st' : AuthState}
    (h : create_user st username email password fn ln = .ok (u, st')) :
    u = ⟨st.nextUserId, username, email, password, fn, ln, true⟩ ∧
    st' = { st with users := st.users ++ [u],
                    profiles := st.profiles ++ [defaultProfile u.id],
                    nextUserId := st.nextUserId + 1 } := by
  unfold create_user at h
  split at h
  · injection h with h1
    injection h1 with h2 h3
    subst h2
    subst h3
    exact ⟨rfl, rfl⟩
  · exact Except.noConfusion h

/-- C9: profile invariant. A `create_user` (through any code path) also
creates the user's profile via the post_save signal, with role
"freemium_user"; the register and create_admin_user paths preserve the
invariant that every user has a profile; and `is_admin` holds exactly when
the profile's role equals "admin". -/
theorem profile_invariant :
    (∀ st username email password fn ln u st',
      WF st → ProfilesComplete st →
      create_user st username email password fn ln = .ok (u, st') →
      getProfile st' u.id = some (defaultProfile u.id) ∧
      (defaultProfile u.id).role = "freemium_user" ∧
      ProfilesComplete st' ∧ WF st') ∧
    (∀ st input, WF st → ProfilesComplete st →
      ProfilesComplete (register st input).2 ∧ WF (register st input).2) ∧
    (∀ st username email password fn ln, WF st → ProfilesComplete st →
      ProfilesComplete (create_admin_user st username email password fn ln).2 ∧
      WF (create_admin_user st username email password fn ln).2) ∧
    (∀ p : ProfileRec, p.is_admin = true ↔ p.role = "admin") := by
  have hcreate : ∀ st (username email password fn ln : String) u st',
      WF st → ProfilesComplete st →
      create_user st username email password fn ln = .ok (u, st') →
      getProfile st' u.id = some (defaultProfile u.id) ∧
      (defaultProfile u.id).role = "freemium_user" ∧
      ProfilesComplete st' ∧ WF st' := by
    intro st username email password fn ln u st' hwf hcomp hok
    obtain ⟨hu, hst⟩ := create_user_ok_inv hok
    have hid : u.id = st.nextUserId := by rw [hu]
    have hus : st'.users = st.users ++ [u] := by rw [hst]
    have hps : st'.profiles = st.profiles ++ [defaultProfile u.id] := by rw [hst]
    have hn : st'.nextUserId = st.nextUserId + 1 := by rw [hst]
    have hnone : st.profiles.find? (fun p => p.userId = u.id) = none := by
      rw [List.find?_eq_none]
      intro p hp
      simp only [decide_eq_true_eq]
      have := hwf.2 p hp
      rw [hid]
      omega
    have hprof : getProfile st' u.id = some (defaultProfile u.id) := by
      unfold getProfile
      rw [hps, find?_append_of_none _ hnone]
      simp [defaultProfile]
    refine ⟨hprof, rfl, ?_, ?_, ?_⟩
    · intro v hv
      rw [hus] at hv
      unfold getProfile
      rw [hps, List.find?_isSome]
      simp only [decide_eq_true_eq]
      rcases List.mem_append.mp hv with hvl | hvr
      · have := hcomp v hvl
        unfold getProfile at this
        rw [List.find?_isSome] at this
        simp only [decide_eq_true_eq] at this
        obtain ⟨q, hq, hqv⟩ := this
        exact ⟨q, List.mem_append_left _ hq, hqv⟩
      · have hveq : v = u := List.mem_singleton.mp hvr
        subst hveq
        exact ⟨defaultProfile v.id,
          List.mem_append_right _ (List.mem_singleton.mpr rfl), rfl⟩
    · intro v hv
      rw [hus] at hv
      rw [hn]
      rcases List.mem_append.mp hv with hvl | hvr
      · have := hwf.1 v hvl
        omega
      · have hveq : v = u := List.mem_singleton.mp hvr
        subst hveq
        rw [hid]
        omega
    · intro p hp
      rw [hps] at hp
      rw [hn]
      rcases List.mem_append.mp hp with hpl | hpr
      · have := hwf.2 p hpl
        omega
      · have hpeq : p = defaultProfile u.id := List.mem_singleton.mp hpr
        subst hpeq
        show u.id < st.nextUserId + 1
        rw [hid]
        omega
  refine ⟨hcreate, ?_, ?_, ?_⟩
  · intro st input hwf hcomp
    unfold register
    split
    · exact ⟨hcomp, hwf⟩
    · split
      · exact ⟨hcomp, hwf⟩
      · split
        next e heq => exact ⟨hcomp, hwf⟩
        next u st1 heq =>
          obtain ⟨-, -, hcomp1, hwf1⟩ :=
            hcreate st input.username input.email input.password
              input.firstName input.lastName u st1 hwf hcomp heq
          obtain ⟨hu, hst⟩ := create_user_ok_inv heq
          have huid : u.id < st1.nextUserId := by
            have h1 : u.id = st.nextUserId := by rw [hu]
            have h2 : st1.nextUserId = st.nextUserId + 1 := by rw [hst]
            omega
          split
          · constructor
            · intro v hv
              have := hcomp1 v hv
              unfold getProfile at this ⊢
              rw [List.find?_isSome] at this ⊢
              simp only [decide_eq_true_eq] at this ⊢
              exact profiles_update_mem st1.profiles u.id
                ⟨u.id, input.bio, input.phoneNumber, input.defaultLocation, input.role⟩
                rfl v.id this
            · exact ⟨hwf1.1, profiles_update_lt st1.profiles u.id st1.nextUserId
                ⟨u.id, input.bio, input.phoneNumber, input.defaultLocation, input.role⟩
                rfl huid hwf1.2⟩
          · exact ⟨hcomp1, hwf1⟩
  · intro st username email password fn ln hwf hcomp
    unfold create_admin_user
    split
    · exact ⟨hcomp, hwf⟩
    · split
      · exact ⟨hcomp, hwf⟩
      · split
        next e heq => exact ⟨hcomp, hwf⟩
        next u st1 heq =>
          obtain ⟨-, -, hcomp1, hwf1⟩ :=
            hcreate st username email password fn ln u st1 hwf hcomp heq
          obtain ⟨hu, hst⟩ := create_user_ok_inv heq
          have huid : u.id < st1.nextUserId := by
            have h1 : u.id = st.nextUserId := by rw [hu]
            have h2 : st1.nextUserId = st.nextUserId + 1 := by rw [hst]
            omega
          split
          · constructor
            · intro v hv
              have := hcomp1 v hv
              unfold getProfile at this ⊢
              rw [List.find?_isSome] at this ⊢
              simp only [decide_eq_true_eq] at this ⊢
              exact profiles_update_mem st1.profiles u.id
                { defaultProfile u.id with role := "admin" } rfl v.id this
            · exact ⟨hwf1.1, profiles_update_lt st1.profiles u.id st1.nextUserId
                { defaultProfile u.id with role := "admin" } rfl huid hwf1.2⟩
          · exact ⟨hcomp, hwf⟩
  · intro p
    unfold ProfileRec.is_admin
    simp

/-- Witness for C9 at concrete inputs: creating a user in the empty state
yields a profile with role "freemium_user", register and create_admin_user
preserve the invariant from the empty state, and is_admin is decided by the
role string. -/
theorem profile_invariant_witness :
    getProfile ⟨[⟨0, "dave", "d@example.com", "pw", "", "", true⟩],
                [defaultProfile 0], [], 1, 0⟩ 0 = some (defaultProfile 0) ∧
    ProfilesComplete
      (register (⟨[], [], [], 0, 0⟩ : AuthState)
        ⟨"eve", "e@example.com", "pw", "", "", "", "", "", "freemium_user"⟩).2 ∧
    ProfilesComplete
      (create_admin_user (⟨[], [], [], 0, 0⟩ : AuthState)
        "root" "r@example.com" "pw" "" "").2 ∧
    ((⟨0, "", "", "", "admin"⟩ : ProfileRec).is_admin = true ↔
      (⟨0, "", "", "", "admin"⟩ : ProfileRec).role = "admin") := by
  refine ⟨?_, ?_, ?_, profile_invariant.2.2.2 ⟨0, "", "", "", "admin"⟩⟩
  · exact (profile_invariant.1 ⟨[], [], [], 0, 0⟩ "dave" "d@example.com" "pw" "" ""
      ⟨0, "dave", "d@example.com", "pw", "", "", true⟩
      ⟨[⟨0, "dave", "d@example.com", "pw", "", "", true⟩], [defaultProfile 0], [], 1, 0⟩
      (by decide) (by decide) rfl).1
  · exact (profile_invariant.2.1 ⟨[], [], [], 0, 0⟩
      ⟨"eve", "e@example.com", "pw", "", "", "", "", "", "freemium_user"⟩
      (by decide) (by decide)).1
  · exact (profile_invariant.2.2.1 ⟨[], [], [], 0, 0⟩ "root" "r@example.com" "pw" "" ""
      (by decide) (by decide)).1

/-- The registration input used against C6's no-user-remains clause: a new
username and email, but a 16-character phone number, which overflows the
profile's varchar(15) phone_number column when profile.save() runs. -/
def longPhoneInput : UserRegistrationInput :=
  ⟨"carol", "carol@example.com", "pw", "", "", "", "0123456789012345", "",
   "freemium_user"⟩

/-- C6 counterexample: registering with a 16-character phone number returns
success = false ("Registration failed: ..."), yet the newly created user
"carol" remains in the database (with her default profile): the profile
update fails after the user row was inserted and register has no
transaction around the two steps, refuting "on any failure no new user
remains in the database". -/
theorem register_failure_user_remains_counterexample :
    (register ⟨[], [], [], 0, 0⟩ longPhoneInput).1.success = false ∧
    (∃ u ∈ (register ⟨[], [], [], 0, 0⟩ longPhoneInput).2.users,
      u.username = "carol") ∧
    (register ⟨[], [], [], 0, 0⟩ longPhoneInput).2.users.length = 1 := by
  decide

/-- C6 (amended): the register mutation returns "Username already exists"
(resp. "Email already exists") and changes nothing when the username
(resp. email) is taken; when user creation itself fails nothing changes
either; when the user row is created and the profile update succeeds, the
mutation succeeds and the input's bio, phone number, default location and
role are stored on the user's profile; but when the profile update fails
after the user row was created, the mutation reports failure while the new
user remains in the database (register, unlike create_admin_user, runs
without a transaction). -/
theorem register_spec (st : AuthState) (input : UserRegistrationInput)
    (hwf : WF st) :
    (st.users.any (fun u => u.username = input.username) = true →
      (register st input).1 = ⟨false, "Username already exists", none⟩ ∧
      (register st input).2 = st) ∧
    (st.users.any (fun u => u.username = input.username) = false →
      st.users.any (fun u => u.email = input.email) = true →
      (register st input).1 = ⟨false, "Email already exists", none⟩ ∧
      (register st input).2 = st) ∧
    (∀ e, st.users.any (fun u => u.username = input.username) = false →
      st.users.any (fun u => u.email = input.email) = false →
      create_user st input.username input.email input.password
        input.firstName input.lastName = .error e →
      (register st input).1 = ⟨false, "Registration failed: " ++ e, none⟩ ∧
      (register st input).2 = st) ∧
    (∀ u st1, st.users.any (fun u => u.username = input.username) = false →
      st.users.any (fun u => u.email = input.email) = false →
      create_user st input.username input.email input.password
        input.firstName input.lastName = .ok (u, st1) →
      (profileSaveOk ⟨u.id, input.bio, input.phoneNumber,
          input.defaultLocation, input.role⟩ = true →
        (register st input).1 = ⟨true, "User registered successfully", some u.id⟩ ∧
        u ∈ (register st input).2.users ∧
        getProfile (register st input).2 u.id =
          some ⟨u.id, input.bio, input.phoneNumber,
                input.defaultLocation, input.role⟩) ∧
      (profileSaveOk ⟨u.id, input.bio, input.phoneNumber,
          input.defaultLocation, input.role⟩ = false →
        (register st input).1 =
          ⟨false, "Registration failed: value too long", none⟩ ∧
        (register st input).2 = st1 ∧
        u ∈ (register st input).2.users)) := by
  refine ⟨?_, ?_, ?_, ?_⟩
  · intro h1
    unfold register
    rw [if_pos h1]
    exact ⟨rfl, rfl⟩
  · intro h1 h2
    unfold register
    rw [if_neg (by simp [h1]), if_pos h2]
    exact ⟨rfl, rfl⟩
  · intro e h1 h2 hok
    have hreg : register st input =
        (⟨false, "Registration failed: " ++ e, none⟩, st) := by
      unfold register
      rw [if_neg (by simp [h1]), if_neg (by simp [h2])]
      simp only [hok]
    exact ⟨by rw [hreg], by rw [hreg]⟩
  · intro u st1 h1 h2 hok
    obtain ⟨hu, hst⟩ := create_user_ok_inv hok
    have hid : u.id = st.nextUserId := by rw [hu]
    have hus : st1.users = st.users ++ [u] := by rw [hst]
    have hps : st1.profiles = st.profiles ++ [defaultProfile u.id] := by rw [hst]
    constructor
    · intro hsave
      have hreg : register st input =
          (⟨true, "User registered successfully", some u.id⟩,
           { st1 with profiles := st1.profiles.map (fun pr =>
               if pr.userId = u.id then
                 ⟨u.id, input.bio, input.phoneNumber, input.defaultLocation, input.role⟩
               else pr) }) := by
        unfold register
        rw [if_neg (by simp [h1]), if_neg (by simp [h2])]
        simp only [hok]
        rw [if_pos hsave]
      refine ⟨by rw [hreg], ?_, ?_⟩
      · rw [hreg]
        show u ∈ st1.users
        rw [hus]
        exact List.mem_append_right _ (List.mem_singleton.mpr rfl)
      · rw [hreg]
        unfold getProfile
        show (st1.profiles.map (fun pr =>
            if pr.userId = u.id then
              ⟨u.id, input.bio, input.phoneNumber, input.defaultLocation, input.role⟩
            else pr)).find? (fun p => p.userId = u.id) = _
        rw [hps, List.map_append, find?_append_of_none]
        · simp [defaultProfile]
        · rw [List.find?_eq_none]
          intro p hp
          obtain ⟨q, hq, rfl⟩ := List.mem_map.mp hp
          have hql := hwf.2 q hq
          have hc : ¬q.userId = u.id := by omega
          rw [if_neg hc]
          simp only [decide_eq_true_eq]
          exact hc
    · intro hsave
      have hreg : register st input =
          (⟨false, "Registration failed: value too long", none⟩, st1) := by
        unfold register
        rw [if_neg (by simp [h1]), if_neg (by simp [h2])]
        simp only [hok]
        rw [if_neg (by simp [hsave])]
      refine ⟨by rw [hreg], by rw [hreg], ?_⟩
      rw [hreg]
      show u ∈ st1.users
      rw [hus]
      exact List.mem_append_right _ (List.mem_singleton.mpr rfl)

/-- Witness for C6's amended theorem: a fresh registration succeeds and
stores the profile fields; the long-phone registration fails but leaves the
created user behind. -/
theorem register_spec_witness :
    ((register (⟨[], [], [], 0, 0⟩ : AuthState)
        ⟨"eve", "e@example.com", "pw", "", "", "hi", "123", "Praha",
         "freemium_user"⟩).1 =
      ⟨true, "User registered successfully", some 0⟩ ∧
     getProfile (register (⟨[], [], [], 0, 0⟩ : AuthState)
        ⟨"eve", "e@example.com", "pw", "", "", "hi", "123", "Praha",
         "freemium_user"⟩).2 0 =
      some ⟨0, "hi", "123", "Praha", "freemium_user"⟩) ∧
    ((register (⟨[], [], [], 0, 0⟩ : AuthState) longPhoneInput).1 =
      ⟨false, "Registration failed: value too long", none⟩ ∧
     (⟨0, "carol", "carol@example.com", "pw", "", "", true⟩ : UserRec) ∈
      (register (⟨[], [], [], 0, 0⟩ : AuthState) longPhoneInput).2.users) := by
  constructor
  · have h := ((register_spec ⟨[], [], [], 0, 0⟩
      ⟨"eve", "e@example.com", "pw", "", "", "hi", "123", "Praha", "freemium_user"⟩
      (by decide)).2.2.2 ⟨0, "eve", "e@example.com", "pw", "", "", true⟩
      ⟨[⟨0, "eve", "e@example.com", "pw", "", "", true⟩], [defaultProfile 0], [], 1, 0⟩
      (by decide) (by decide) rfl).1 (by decide)
    exact ⟨h.1, h.2.2⟩
  · have h := ((register_spec ⟨[], [], [], 0, 0⟩ longPhoneInput
      (by decide)).2.2.2 ⟨0, "carol", "carol@example.com", "pw", "", "", true⟩
      ⟨[⟨0, "carol", "carol@example.com", "pw", "", "", true⟩], [defaultProfile 0], [], 1, 0⟩
      (by decide) (by decide) rfl).2 (by decide)
    exact ⟨h.1, h.2.2⟩

/-! ### Saving an AI payload as a Place (`src/scraping/admin.py:159-243`)

`ScrapedPlaceAdmin.save_as_place` parses the posted JSON, requires lat and
lon, maps the season and the type list, and creates a Place linked to the
ScrapedPlace. JSON values are modelled with numbers as rationals (Python
floats are not modelled; the handler only passes coordinates through,
never computes with them). `data.get(k, d)` on an optional field is
`Option.getD`. Python `str.upper` / `str.lower` are `strUpper` /
`strLower` over the character list. `hasattr(Place.PlaceType, t)` for an
uppercased `t` holds exactly when `t` is one of the seventeen member
names, and `getattr` then yields the member whose value is that name. -/

def strUpper (s : String) : String := ⟨upperChars s.data⟩

def strLower (s : String) : String := ⟨lowerChars s.data⟩

def placeTypeNames : List String :=
  ["PLAYGROUND", "INDOOR_PLAYGROUND", "KINDERGARTEN", "CAFE", "RESTAURANT",
   "SHOP", "AMUSEMENT_PARK", "MUSEUM", "GALLERY", "ZOO", "AQUAPARK",
   "COMMUNITY_CENTER", "KIDS_PLAYROOM", "CASTLE", "HOTEL", "ATTRACTION",
   "NATURAL_ATTRACTION"]

/-- `season_mapping.get(value, PlaceSeasonType.ALL)` for the lower-cased
season value (`src/scraping/admin.py:177-182`). -/
def seasonMapping (s : String) : String :=
  if s = "winter" then "WINTER"
  else if s = "summer" then "SUMMER"
  else if s = "all" then "ALL"
  else "ALL"

structure PlacePayload where
  lat : Option Rat
  lon : Option Rat
  name : Option String
  description : Option String
  countryCode : Option String
  city : Option String
  minAge : Option Int
  maxAge : Option Int
  website : Option String
  street : Option String
  zipCode : Option String
  season : Option String
  types : Option (List String)
  isAdmissionFree : Option Bool
deriving DecidableEq, Repr

/-- A Place row (`src/place/models.py`); `location` is the PostGIS point
`Point(lon, lat)`, stored as the pair (x, y) = (lon, lat). -/
structure Place where
  name : String
  scrapedId : Option Nat
  type : List String
  description : String
  location : Rat × Rat
  countryCode : String
  city : String
  minAge : Option Int
  maxAge : Option Int
  website : String
  street : String
  zipCode : String
  season : String
  isAdmissionFree : Bool
deriving DecidableEq, Repr

structure ScrapingState where
  scrapedIds : List Nat
  places : List Place
deriving DecidableEq, Repr

/-- `ScrapedPlaceAdmin.save_as_place`: 405 for a non-POST request, 404 when
the ScrapedPlace id does not exist, 500 when the body is not JSON, 400 when
lat or lon is missing, otherwise creates the Place and returns 200. The
returned number is the HTTP status of the JsonResponse. -/
def save_as_place (st : ScrapingState) (isPost : Bool) (placeId : Nat)
    (body : Option PlacePayload) : Nat × ScrapingState :=
  if !isPost then (405, st)
  else if placeId ∉ st.scrapedIds then (404, st)
  else
    match body with
    | none => (500, st)
    | some data =>
        match data.lat, data.lon with
        | some lat, some lon =>
            (200, { st with places := st.places ++
              [{ name := (data.name.getD ""), scrapedId := some placeId,
                 type := (data.types.getD []).filterMap (fun t =>
                   if strUpper t ∈ placeTypeNames then some (strUpper t) else none),
                 description := (data.description.getD ""),
                 location := (lon, lat),
                 countryCode := (data.countryCode.getD ""),
                 city := (data.city.getD ""),
                 minAge := data.minAge, maxAge := data.maxAge,
                 website := (data.website.getD ""),
                 street := (data.street.getD ""),
                 zipCode := (data.zipCode.getD ""),
                 season := seasonMapping (strLower (data.season.getD "")),
                 isAdmissionFree := (data.isAdmissionFree.getD false) }] })
        | _, _ => (400, st)

/-- C7: enrichment into a structured record. For every payload posted to
save_as_place for an existing ScrapedPlace: when lat or lon is missing the
handler answers 400 and creates nothing; otherwise it answers 200 and
appends a Place linked via scraped_id to that ScrapedPlace, whose location
is the point (lon, lat), whose season is the case-insensitive match of the
payload's season among WINTER/SUMMER/ALL defaulting to ALL, and whose type
list contains exactly the uppercased payload types that are valid PlaceType
values, dropping the rest. -/
theorem save_as_place_enrichment (st : ScrapingState) (placeId : Nat)
    (data : PlacePayload) (hid : placeId ∈ st.scrapedIds) :
    ((data.lat = none ∨ data.lon = none) →
      save_as_place st true placeId (some data) = (400, st)) ∧
    (∀ lat lon, data.lat = some lat → data.lon = some lon →
      save_as_place st true placeId (some data) =
        (200, { st with places := st.places ++
          [{ name := (data.name.getD ""), scrapedId := some placeId,
             type := (data.types.getD []).filterMap (fun t =>
               if strUpper t ∈ placeTypeNames then some (strUpper t) else none),
             description := (data.description.getD ""),
             location := (lon, lat),
             countryCode := (data.countryCode.getD ""),
             city := (data.city.getD ""),
             minAge := data.minAge, maxAge := data.maxAge,
             website := (data.website.getD ""),
             street := (data.street.getD ""),
             zipCode := (data.zipCode.getD ""),
             season := seasonMapping (strLower (data.season.getD "")),
             isAdmissionFree := (data.isAdmissionFree.getD false) }] })) ∧
    (∀ T, T ∈ (data.types.getD []).filterMap (fun t =>
        if strUpper t ∈ placeTypeNames then some (strUpper t) else none) ↔
      ∃ t ∈ data.types.getD [], strUpper t = T ∧ T ∈ placeTypeNames) ∧
    (∀ s, data.season = some s → strLower s ∉ (["winter", "summer", "all"] : List String) →
      seasonMapping (strLower (data.season.getD "")) = "ALL") := by
  refine ⟨?_, ?_, ?_, ?_⟩
  · intro hmiss
    unfold save_as_place
    rw [if_neg (by simp), if_neg (by simp [hid])]
    rcases hmiss with h | h <;> rcases hlat : data.lat with - | lat <;>
      rcases hlon : data.lon with - | lon <;> simp_all
  · intro lat lon hlat hlon
    unfold save_as_place
    rw [if_neg (by simp), if_neg (by simp [hid])]
    simp only [hlat, hlon]
  · intro T
    rw [List.mem_filterMap]
    constructor
    · rintro ⟨t, ht, hf⟩
      by_cases hc : strUpper t ∈ placeTypeNames
      · rw [if_pos hc] at hf
        injection hf with hT
        exact ⟨t, ht, hT, hT ▸ hc⟩
      · rw [if_neg hc] at hf
        exact Option.noConfusion hf
    · rintro ⟨t, ht, hT, hmem⟩
      refine ⟨t, ht, ?_⟩
      rw [if_pos (by rw [hT]; exact hmem), hT]
  · intro s hs hnot
    rw [hs]
    show seasonMapping (strLower s) = "ALL"
    unfold seasonMapping
    simp only [List.mem_cons, List.mem_singleton, not_or] at hnot
    rw [if_neg hnot.1, if_neg hnot.2.1, if_neg (by simpa using hnot.2.2)]

/-- Witness for C7: a payload with coordinates (lat 50, lon 14), season
"Winter" and types ["playground", "park"] creates a Place at (14, 50) with
season WINTER and type list ["PLAYGROUND"] ("park" is not a PlaceType and
is dropped); removing lat yields a 400 with no Place created. -/
theorem save_as_place_enrichment_witness :
    save_as_place ⟨[7], []⟩ true 7
      (some ⟨some 50, some 14, some "Zoo Praha", none, some "cz", some "Praha",
             none, none, none, none, none, some "Winter",
             some ["playground", "park"], some true⟩) =
      (200, ⟨[7],
        [{ name := "Zoo Praha", scrapedId := some 7, type := ["PLAYGROUND"],
           description := "", location := ((14 : Rat), (50 : Rat)),
           countryCode := "cz", city := "Praha", minAge := none, maxAge := none,
           website := "", street := "", zipCode := "", season := "WINTER",
           isAdmissionFree := true }]⟩) ∧
    save_as_place ⟨[7], []⟩ true 7
      (some ⟨none, some 14, some "Zoo Praha", none, some "cz", some "Praha",
             none, none, none, none, none, some "Winter",
             some ["playground", "park"], some true⟩) =
      (400, ⟨[7], []⟩) :=
  ⟨(save_as_place_enrichment ⟨[7], []⟩ 7
      ⟨some 50, some 14, some "Zoo Praha", none, some "cz", some "Praha",
       none, none, none, none, none, some "Winter",
       some ["playground", "park"], some true⟩ (by decide)).2.1 50 14 rfl rfl,
   (save_as_place_enrichment ⟨[7], []⟩ 7
      ⟨none, some 14, some "Zoo Praha", none, some "cz", some "Praha",
       none, none, none, none, none, some "Winter",
       some ["playground", "park"], some true⟩ (by decide)).1 (Or.inl rfl)⟩

/-! ### Geocoding (`src/common/geocoding.py`)

`geocode_address` requires a Mapbox API key (ValueError otherwise, before
any request), builds the query from place_name and city only (street and
zip_code are commented out in the source), returns (None, None) when both
are missing or when the HTTP request fails (any exception in the try block
is caught), (None, data) when the response carries no features, and
otherwise a point from the first feature's [longitude, latitude]
coordinates plus the raw response. The HTTP response is an oracle
parameter; Python falsiness of the missing inputs is modelled by the empty
string standing for both None and "". -/

structure GeoFeature where
  lon : Rat
  lat : Rat
deriving DecidableEq, Repr

structure GeoResponse where
  features : List GeoFeature
deriving DecidableEq, Repr

inductive HttpResult where
  | failure
  | success (data : GeoResponse)
deriving DecidableEq, Repr

def geocode_address (apiKey street zipCode city placeName countryCode : String)
    (http : HttpResult) :
    Except String (Option (Rat × Rat) × Option GeoResponse) :=
  if apiKey = "" then
    .error "Mapbox API key not found. Please set MAPBOX_API_KEY in .env or settings."
  else
    if ((if placeName ≠ "" then [placeName] else []) ++
        (if city ≠ "" then [city] else [])) = ([] : List String) then
      .ok (none, none)
    else
      match http with
      | .failure => .ok (none, none)
      | .success data =>
          match data.features with
          | [] => .ok (none, some data)
          | f :: _ => .ok (some (f.lon, f.lat), some data)

/-- C8: geocode_address raises ValueError exactly when no Mapbox API key is
configured; given a key, it returns (None, None) when neither place_name
nor city is provided or when the HTTP request fails, (None, data) when the
API responds with no features, and otherwise a point built from the first
feature's (longitude, latitude) coordinates together with the raw
response. -/
theorem geocode_address_spec (apiKey street zipCode city placeName
    countryCode : String) (http : HttpResult) :
    ((∃ e, geocode_address apiKey street zipCode city placeName countryCode http =
        .error e) ↔ apiKey = "") ∧
    (apiKey ≠ "" → placeName = "" → city = "" →
      geocode_address apiKey street zipCode city placeName countryCode http =
        .ok (none, none)) ∧
    (apiKey ≠ "" → (placeName ≠ "" ∨ city ≠ "") → http = .failure →
      geocode_address apiKey street zipCode city placeName countryCode http =
        .ok (none, none)) ∧
    (∀ geo, apiKey ≠ "" → (placeName ≠ "" ∨ city ≠ "") → http = .success geo →
      (geo.features = [] →
        geocode_address apiKey street zipCode city placeName countryCode http =
          .ok (none, some geo)) ∧
      (∀ f rest, geo.features = f :: rest →
        geocode_address apiKey street zipCode city placeName countryCode http =
          .ok (some (f.lon, f.lat), some geo))) := by
  have hparts : ∀ hor : placeName ≠ "" ∨ city ≠ "",
      ((if placeName ≠ "" then [placeName] else []) ++
        (if city ≠ "" then [city] else [])) ≠ ([] : List String) := by
    intro hor
    rcases hor with hP | hC
    · simp [hP]
    · simp [hC]
  refine ⟨⟨?_, ?_⟩, ?_, ?_, ?_⟩
  · rintro ⟨e, herr⟩
    by_contra hk
    unfold geocode_address at herr
    rw [if_neg hk] at herr
    repeat' split at herr
    all_goals exact Except.noConfusion herr
  · intro hk
    exact ⟨_, by unfold geocode_address; rw [if_pos hk]⟩
  · intro hk hP hC
    unfold geocode_address
    rw [if_neg hk, if_pos (by simp [hP, hC])]
  · intro hk hor hfail
    unfold geocode_address
    rw [if_neg hk, if_neg (hparts hor), hfail]
  · intro geo hk hor hsucc
    constructor
    · intro hfeat
      unfold geocode_address
      rw [if_neg hk, if_neg (hparts hor), hsucc]
      simp only [hfeat]
    · intro f rest hfeat
      unfold geocode_address
      rw [if_neg hk, if_neg (hparts hor), hsucc]
      simp only [hfeat]

/-- Witness for C8: with a key and a city, a response whose first feature
has coordinates [14, 50] yields the point (14, 50) with the raw response;
with no key the function raises. -/
theorem geocode_address_spec_witness :
    geocode_address "key" "" "" "Praha" "" "us" (.success ⟨[⟨14, 50⟩]⟩) =
      .ok (some ((14 : Rat), (50 : Rat)), some ⟨[⟨14, 50⟩]⟩) ∧
    (∃ e, geocode_address "" "" "" "Praha" "" "us" (.success ⟨[⟨14, 50⟩]⟩) =
      .error e) :=
  ⟨((geocode_address_spec "key" "" "" "Praha" "" "us"
      (.success ⟨[⟨14, 50⟩]⟩)).2.2.2 ⟨[⟨14, 50⟩]⟩ (by decide)
      (Or.inr (by decide)) rfl).2 ⟨14, 50⟩ [] rfl,
   (geocode_address_spec "" "" "" "Praha" "" "us"
      (.success ⟨[⟨14, 50⟩]⟩)).1.mpr rfl⟩

end FmBackend
